import Mathlib

/-!
Shallow embedding of the trading simulator (`Trading_sim.py`).

Modelling conventions:
- Python `float` values (prices, weighted averages) are modelled as `ℚ`;
  `datetime` instants are modelled as `ℚ` (seconds on an arbitrary epoch), so
  `timedelta(minutes=5)` is the rational `5 * 60`.
- A Python value that may be `None` is an `Option`.
- A Python function that can raise is `Except Err _`; `Err` distinguishes the
  exception class (`ValueError`, `TypeError`, `NameError`) and carries the
  message, because `gbce` discriminates errors by message text and the REPL
  catches only `ValueError` and `TypeError`.
- `datetime.now(UTC)` has no counterpart in a pure model: every function that
  reads the clock takes the sampled instant as an explicit `now : ℚ` argument
  standing for the value the call to `datetime.now(UTC)` returned.
-/

namespace TradingSim

/-- Model of Python's `str.lower()` on the ASCII strings this program uses:
lowercase every character. Defined structurally so concrete calls evaluate in
the kernel (the library's `String.toLower` recurses by well-founded measure
and does not). -/
def pyLower (s : String) : String := ⟨s.data.map Char.toLower⟩

/-- Model of Python's `str.startswith`: the pattern is a prefix of the string.
Defined structurally so concrete calls evaluate in the kernel. -/
def pyStartsWith (s pat : String) : Bool := pat.data.isPrefixOf s.data

/-- Decidable equality for `Except`, used to evaluate the embedded functions
at concrete inputs. -/
instance {e a : Type} [DecidableEq e] [DecidableEq a] : DecidableEq (Except e a) := fun x y =>
  match x, y with
  | .ok u, .ok v =>
    if h : u = v then .isTrue (by rw [h]) else .isFalse (by intro hc; cases hc; exact h rfl)
  | .error u, .error v =>
    if h : u = v then .isTrue (by rw [h]) else .isFalse (by intro hc; cases hc; exact h rfl)
  | .ok _, .error _ => .isFalse (by intro hc; cases hc)
  | .error _, .ok _ => .isFalse (by intro hc; cases hc)

/-- Python exceptions relevant to this program: the class and the message. -/
inductive Err where
  | valueError (msg : String)
  | typeError (msg : String)
  | nameError (msg : String)
deriving DecidableEq

/-- Model of class `Stock` (`__slots__ = symbol, typ, last_div, fixed_div,
par_value`); `fixed_div` stays `Option` because the constructor stores `None`
for non-preferred stocks. -/
structure Stock where
  symbol : String
  typ : String
  last_div : ℤ
  fixed_div : Option ℤ
  par_value : ℤ
deriving DecidableEq

/-- Model of class `Trade` (`__slots__ = instant, stock, is_buy, qty, price`). -/
structure Trade where
  instant : ℚ
  stock : Stock
  is_buy : Bool
  qty : ℤ
  price : ℚ
deriving DecidableEq

def mandatory_stock_msg : String :=
  "Mandatory fields (symbol, type, last_div, par_value) cannot be None!"

def fixed_div_none_msg : String :=
  "fixed_div cannot be None for preferred stock!"

/-- Model of `Stock.__init__`: the `None` check on the four mandatory fields,
then `typ.lower()`, then the preferred-only `fixed_div` check. Integer inputs
are already `ℤ`, so the `int(...)` coercions are identities. -/
def Stock.init (symbol : Option String) (typ : Option String) (last_div : Option ℤ)
    (fixed_div : Option ℤ) (par_value : Option ℤ) : Except Err Stock :=
  match symbol, typ, last_div, par_value with
  | some symbol, some typ0, some last_div, some par_value =>
    let typ := pyLower typ0
    if typ = "preferred" then
      match fixed_div with
      | none => .error (.valueError fixed_div_none_msg)
      | some fd => .ok ⟨symbol, typ, last_div, some fd, par_value⟩
    else
      .ok ⟨symbol, typ, last_div, fixed_div, par_value⟩
  | _, _, _, _ => .error (.valueError mandatory_stock_msg)

def int_of_none_msg : String :=
  "int() argument must be a string, a bytes-like object or a real number, not \x27NoneType\x27"

def float_of_none_msg : String :=
  "float() argument must be a string or a real number, not \x27NoneType\x27"

/-- Model of the coercion `int(qty)` on a possibly-`None` integer argument:
`int(None)` raises `TypeError`. -/
def pyInt : Option ℤ → Except Err ℤ
  | none => .error (.typeError int_of_none_msg)
  | some n => .ok n

/-- Model of the coercion `float(price)` on a possibly-`None` numeric argument:
`float(None)` raises `TypeError`. -/
def pyFloat : Option ℚ → Except Err ℚ
  | none => .error (.typeError float_of_none_msg)
  | some x => .ok x

def mandatory_trade_msg : String :=
  "Mandatory fields (stock, indicator, qty, price) cannot be None!"

def qty_price_msg : String :=
  "Price and quantity must be greater than 0"

/-- Model of `Trade.__init__`, in source order: `instant = datetime.now(UTC)`
(the sampled clock is the argument `now`), the coercions `int(qty)` and
`float(price)`, the `None` check (`qty` and `price` are plain numbers at that
point, so only `stock` and `indicator` can still be `None`), the positivity
check, then the lowered buy/sell indicator check. -/
def Trade.init (now : ℚ) (stock : Option Stock) (indicator : Option String)
    (qty0 : Option ℤ) (price0 : Option ℚ) : Except Err Trade :=
  match pyInt qty0 with
  | .error e => .error e
  | .ok qty =>
    match pyFloat price0 with
    | .error e => .error e
    | .ok price =>
      match stock, indicator with
      | some stock, some indicator =>
        if qty ≤ 0 ∨ price ≤ 0 then .error (.valueError qty_price_msg)
        else
          let ind := pyLower indicator
          if ind = "buy" ∨ ind = "sell" then
            .ok ⟨now, stock, ind = "buy", qty, price⟩
          else
            .error (.valueError ("Invalid buy/sell indicator " ++ ind))
      | _, _ => .error (.valueError mandatory_trade_msg)

def name_valueError_msg : String :=
  "name \x27valueError\x27 is not defined"

def mul_none_int_msg : String :=
  "unsupported operand type(s) for *: \x27NoneType\x27 and \x27int\x27"

/-- Model of `calc_div_yield`. On `price <= 0` the source executes
`raise valueError(...)` — `valueError` (lower-case v) is an undefined name, so
evaluating it raises `NameError`, not the intended `ValueError`. The non-common
branch computes `stock.fixed_div * stock.par_value`, which raises `TypeError`
when `fixed_div` is `None`. -/
def calc_div_yield (stock : Stock) (price : ℚ) : Except Err ℚ :=
  if price ≤ 0 then .error (.nameError name_valueError_msg)
  else if pyLower stock.typ = "common" then .ok ((stock.last_div : ℚ) / price)
  else
    match stock.fixed_div with
    | none => .error (.typeError mul_none_int_msg)
    | some fd => .ok (((fd * stock.par_value : ℤ) : ℚ) / (price * 100))

def no_activity_head : String :=
  "Couldn\x27t find any trading activity"

def no_activity_msg (symbol : String) : String :=
  no_activity_head ++ " for " ++ symbol ++ "!"

/-- Condition of line 103: `trade.instant > cutoff_date and trade.stock.symbol
== stock.symbol`. -/
def trade_matches (cutoff_date : ℚ) (stock : Stock) (trade : Trade) : Bool :=
  decide (cutoff_date < trade.instant) && decide (trade.stock.symbol = stock.symbol)

/-- One iteration of the accumulation loop of `calc_volume_weighted_price`:
`weighted_price += trade.price * trade.qty; volume += trade.qty` on a match. -/
def vwp_step (cutoff_date : ℚ) (stock : Stock) (acc : ℚ × ℤ) (trade : Trade) : ℚ × ℤ :=
  if trade_matches cutoff_date stock trade then
    (acc.1 + trade.price * (trade.qty : ℚ), acc.2 + trade.qty)
  else acc

/-- Model of `calc_volume_weighted_price`. The source computes
`cutoff_date = datetime.now(UTC) - timedelta(minutes=5)`; the sampled clock
value is the explicit argument `now`. -/
def calc_volume_weighted_price (now : ℚ) (stock : Stock) (trades : List Trade) :
    Except Err ℚ :=
  let cutoff_date := now - 5 * 60
  let r := trades.foldl (vwp_step cutoff_date stock) (0, 0)
  if r.2 = 0 then .error (.valueError (no_activity_msg stock.symbol))
  else .ok (r.1 / (r.2 : ℚ))

def global_no_activity_msg : String :=
  no_activity_head ++ " for any stock!"

/-- The error discrimination of `gbce`: a `ValueError` whose message starts
with the no-activity text is swallowed; anything else propagates. -/
def swallowed (e : Err) : Bool :=
  match e with
  | .valueError m => pyStartsWith m no_activity_head
  | _ => false

/-- The collection loop of `gbce` (lines 113-119): per-stock volume-weighted
prices in registry iteration order, dropping stocks whose computation failed
with the no-activity `ValueError` and propagating any other failure. -/
def gbce_prices (now : ℚ) (stocks : List Stock) (trades : List Trade) :
    Except Err (List ℚ) :=
  match stocks with
  | [] => .ok []
  | s :: rest =>
    match calc_volume_weighted_price now s trades with
    | .ok p =>
      match gbce_prices now rest trades with
      | .ok ps => .ok (p :: ps)
      | .error e => .error e
    | .error e =>
      if swallowed e then gbce_prices now rest trades
      else .error e

/-- Model of `statistics.geometric_mean` for positive data: the library
computes `exp(fmean(map(log, data)))`, i.e. the exponential of the arithmetic
mean of the logarithms (sum of logs divided by the length). -/
noncomputable def geometric_mean (data : List ℚ) : ℝ :=
  Real.exp ((data.map (fun x : ℚ => Real.log (x : ℝ))).sum / (data.length : ℝ))

/-- Model of `gbce` (lines 111-122): collect the per-stock prices, fail with
the global no-activity `ValueError` when none were collected, otherwise return
their geometric mean. -/
noncomputable def gbce (now : ℚ) (stocks : List Stock) (trades : List Trade) :
    Except Err ℝ :=
  match gbce_prices now stocks trades with
  | .error e => .error e
  | .ok ps =>
    if ps.length = 0 then .error (.valueError global_no_activity_msg)
    else .ok (geometric_mean ps)

/-- The filtered set the spec describes for the volume-weighted price: trades
inside the strict 5-minute window whose stock symbol matches. -/
def matchedTrades (now : ℚ) (stock : Stock) (trades : List Trade) : List Trade :=
  trades.filter (trade_matches (now - 5 * 60) stock)

/-- Fixture: the catalog's common stock POP (`Stock('POP', 'common', 8, None, 100)`). -/
def stockPOP : Stock := ⟨"POP", "common", 8, none, 100⟩

/-- Fixture: the catalog's preferred stock GIN (`Stock('GIN', 'preferred', 8, 2, 100)`). -/
def stockGIN : Stock := ⟨"GIN", "preferred", 8, some 2, 100⟩

/-- Fixture: a buy trade on POP, 100 shares at price 10, at instant 100. -/
def tradePOP : Trade := ⟨100, stockPOP, true, 100, 10⟩

/-! ## Helper lemmas -/

lemma pyLower_common : pyLower "common" = "common" := by decide

lemma pyLower_preferred : pyLower "preferred" = "preferred" := by decide

/-- The accumulation loop of `calc_volume_weighted_price` computes the two
sums over the filtered trades, added to the accumulator. -/
lemma vwp_foldl (c : ℚ) (s : Stock) (ts : List Trade) (a : ℚ) (b : ℤ) :
    ts.foldl (vwp_step c s) (a, b) =
      (a + ((ts.filter (trade_matches c s)).map (fun t => t.price * (t.qty : ℚ))).sum,
       b + ((ts.filter (trade_matches c s)).map Trade.qty).sum) := by
  induction ts generalizing a b with
  | nil => simp
  | cons t ts ih =>
    by_cases h : trade_matches c s t
    · simp [vwp_step, h, ih, List.filter_cons, add_assoc]
    · simp [vwp_step, h, ih, List.filter_cons]

/-- Concrete evaluation: the single POP trade is inside the window at
instant 200, and the weighted average of one trade is its price. -/
lemma vwp_at_200 : calc_volume_weighted_price 200 stockPOP [tradePOP] = .ok 10 := by
  have h := vwp_foldl (200 - 5 * 60) stockPOP [tradePOP] 0 0
  have hm : trade_matches (200 - 5 * 60) stockPOP tradePOP = true := by
    norm_num [trade_matches, stockPOP, tradePOP]
  simp only [calc_volume_weighted_price, h, List.filter_cons, hm]
  norm_num [tradePOP]

/-- Concrete evaluation: at instant 1000 the POP trade (instant 100) is older
than the 5-minute cutoff, so the computation fails with the no-activity error. -/
lemma vwp_at_1000 :
    calc_volume_weighted_price 1000 stockPOP [tradePOP] =
      .error (.valueError (no_activity_msg "POP")) := by
  have h := vwp_foldl (1000 - 5 * 60) stockPOP [tradePOP] 0 0
  have hm : trade_matches (1000 - 5 * 60) stockPOP tradePOP = false := by
    norm_num [trade_matches, stockPOP, tradePOP]
  simp only [calc_volume_weighted_price, h, List.filter_cons, hm]
  norm_num [stockPOP]

/-! ## Claim theorems -/

/-- C1: the spec says `calc_div_yield` fails with the `ValueError`
"Price must be greater than 0" on a non-positive price. The source's
`raise valueError(...)` names an undefined identifier, so the call fails with
`NameError` instead (no yield value is returned, but the error class and
message are not the documented ones). Shown at price 0 on a common stock and
at price -1 on a preferred stock. -/
theorem calc_div_yield_nonpositive_price_raises_name_error :
    calc_div_yield stockPOP 0 = .error (.nameError name_valueError_msg)
    ∧ calc_div_yield stockGIN (-1) = .error (.nameError name_valueError_msg)
    ∧ (∀ m, calc_div_yield stockPOP 0 ≠ .error (.valueError m)) := by
  refine ⟨rfl, by norm_num [calc_div_yield], ?_⟩
  intro m h
  rw [show calc_div_yield stockPOP 0 = .error (.nameError name_valueError_msg) from rfl] at h
  simp at h

/-- C2: for a recognized kind and a positive price, the dividend yield is
`last_div / price` for a common stock and `(fixed_div * par_value) /
(price * 100)` for a preferred one; in particular it is 4 for
POP (common, last_div 8) at price 2 and 1/25 = 0.04 for GIN (preferred,
fixed_div 2, par_value 100) at price 50. -/
theorem calc_div_yield_formula (stock : Stock) (price : ℚ) (hp : 0 < price) :
    (pyLower stock.typ = "common" →
      calc_div_yield stock price = .ok ((stock.last_div : ℚ) / price))
    ∧ (∀ fd, pyLower stock.typ = "preferred" → stock.fixed_div = some fd →
      calc_div_yield stock price = .ok (((fd * stock.par_value : ℤ) : ℚ) / (price * 100)))
    ∧ calc_div_yield stockPOP 2 = .ok 4
    ∧ calc_div_yield stockGIN 50 = .ok (1 / 25) := by
  have hnp : ¬ price ≤ 0 := not_le.mpr hp
  refine ⟨?_, ?_, ?_, ?_⟩
  · intro h
    simp only [calc_div_yield, if_neg hnp, if_pos h]
  · intro fd hpref hfd
    have hnc : ¬ pyLower stock.typ = "common" := by
      rw [hpref]; decide
    simp only [calc_div_yield, if_neg hnp, if_neg hnc, hfd]
  · norm_num [calc_div_yield, stockPOP, pyLower_common]
  · norm_num [calc_div_yield, stockGIN, pyLower_preferred,
      show ("preferred" = "common") = False by decide]

/-- Witness for C2 at the two concrete securities of the spec's examples. -/
theorem calc_div_yield_formula_witness :
    calc_div_yield stockPOP 2 = .ok 4 ∧ calc_div_yield stockGIN 50 = .ok (1 / 25) :=
  ⟨(calc_div_yield_formula stockPOP 2 (by norm_num)).2.2.1,
   (calc_div_yield_formula stockGIN 50 (by norm_num)).2.2.2⟩

/-- C3: under the trade invariant that quantities are positive (enforced by
`Trade.__init__`), `calc_volume_weighted_price` fails with the no-activity
`ValueError` exactly when no trade lies strictly inside the 5-minute window
with the right symbol, and otherwise returns the quantity-weighted average
price over the filtered trades. -/
theorem calc_volume_weighted_price_spec (now : ℚ) (stock : Stock) (trades : List Trade)
    (hq : ∀ t ∈ trades, 0 < t.qty) :
    (matchedTrades now stock trades = [] →
      calc_volume_weighted_price now stock trades =
        .error (.valueError (no_activity_msg stock.symbol)))
    ∧ (matchedTrades now stock trades ≠ [] →
      calc_volume_weighted_price now stock trades =
        .ok (((matchedTrades now stock trades).map (fun t => t.price * (t.qty : ℚ))).sum /
             (((matchedTrades now stock trades).map Trade.qty).sum : ℚ))) := by
  have hfold := vwp_foldl (now - 5 * 60) stock trades 0 0
  have hm : matchedTrades now stock trades =
      trades.filter (trade_matches (now - 5 * 60) stock) := rfl
  constructor
  · intro hempty
    rw [hm] at hempty
    simp only [calc_volume_weighted_price, hfold, hempty, List.map_nil, List.sum_nil,
      add_zero, zero_add]
    simp
  · intro hne
    rw [hm] at hne
    have hpos : 0 < ((trades.filter (trade_matches (now - 5 * 60) stock)).map Trade.qty).sum := by
      refine List.sum_pos _ ?_ (by simpa using hne)
      intro x hx
      obtain ⟨t, ht, rfl⟩ := List.mem_map.mp hx
      exact hq t (List.mem_filter.mp ht).1
    simp only [calc_volume_weighted_price, hfold, zero_add, hm]
    rw [if_neg hpos.ne.symm]

/-- Witness for C3: the single in-window POP trade gives its own price, and an
empty ledger gives the no-activity error. -/
theorem calc_volume_weighted_price_spec_witness :
    calc_volume_weighted_price 200 stockPOP [tradePOP] =
      .ok (((matchedTrades 200 stockPOP [tradePOP]).map (fun t => t.price * (t.qty : ℚ))).sum /
           (((matchedTrades 200 stockPOP [tradePOP]).map Trade.qty).sum : ℚ))
    ∧ calc_volume_weighted_price 0 stockPOP [] =
        .error (.valueError (no_activity_msg stockPOP.symbol)) :=
  ⟨(calc_volume_weighted_price_spec 200 stockPOP [tradePOP]
      (by intro t ht; simp at ht; rw [ht]; decide)).2
      (by norm_num [matchedTrades, List.filter_cons, trade_matches, stockPOP, tradePOP]),
   (calc_volume_weighted_price_spec 0 stockPOP [] (by intro t ht; simp at ht)).1 rfl⟩

/-- C4 (amended): in the source, `calc_volume_weighted_price(stock, trades)`
does not take `now` as a parameter — it samples `datetime.now(UTC)` itself.
Its outcome is a function of the sampled instant together with the explicit
inputs, and it genuinely depends on the instant: the same security and trade
list can give a price at one instant and the no-activity failure at another. -/
theorem calc_volume_weighted_price_clock_dependent :
    (∀ (n : ℚ) (s : Stock) (ts : List Trade) (r₁ r₂ : Except Err ℚ),
      calc_volume_weighted_price n s ts = r₁ → calc_volume_weighted_price n s ts = r₂ →
        r₁ = r₂)
    ∧ ∃ (n₁ n₂ : ℚ) (s : Stock) (ts : List Trade),
        calc_volume_weighted_price n₁ s ts ≠ calc_volume_weighted_price n₂ s ts := by
  refine ⟨fun n s ts r₁ r₂ h₁ h₂ => h₁ ▸ h₂, 200, 1000, stockPOP, [tradePOP], ?_⟩
  rw [vwp_at_200, vwp_at_1000]
  simp

/-- C4 counterexample: with the security and the trade list fixed, sampling
the clock at instant 200 and at instant 1000 gives different results, so the
function of the source is not determined by its explicit Python inputs. -/
theorem calc_volume_weighted_price_not_input_deterministic :
    calc_volume_weighted_price 200 stockPOP [tradePOP] ≠
      calc_volume_weighted_price 1000 stockPOP [tradePOP] := by
  rw [vwp_at_200, vwp_at_1000]
  simp

/-- C5: the collection loop of `gbce` keeps exactly the per-stock prices whose
computation succeeded, silently dropping stocks that failed with the swallowed
no-activity `ValueError`; any error it returns is an unswallowed failure of
some stock in the registry; and the final result is the global no-activity
`ValueError` when no price was collected, the geometric mean otherwise. -/
theorem gbce_error_handling (now : ℚ) (stocks : List Stock) (trades : List Trade) :
    ((∀ s ∈ stocks, ∀ e, calc_volume_weighted_price now s trades = .error e →
        swallowed e = true) →
      gbce_prices now stocks trades =
        .ok (stocks.filterMap (fun s => (calc_volume_weighted_price now s trades).toOption)))
    ∧ (∀ e, gbce_prices now stocks trades = .error e →
        swallowed e = false ∧ ∃ s ∈ stocks, calc_volume_weighted_price now s trades = .error e)
    ∧ (∀ ps, gbce_prices now stocks trades = .ok ps →
        (ps = [] → gbce now stocks trades = .error (.valueError global_no_activity_msg))
        ∧ (ps ≠ [] → gbce now stocks trades = .ok (geometric_mean ps))) := by
  refine ⟨?_, ?_, ?_⟩
  · intro hsw
    induction stocks with
    | nil => rfl
    | cons s rest ih =>
      have ihr := ih (fun t ht e he => hsw t (List.mem_cons_of_mem s ht) e he)
      cases hv : calc_volume_weighted_price now s trades with
      | ok p =>
        simp only [gbce_prices, hv, ihr, List.filterMap_cons, Except.toOption]
      | error e =>
        have hse : swallowed e = true := hsw s (List.mem_cons_self s rest) e hv
        simp only [gbce_prices, hv, hse, if_pos, ihr, List.filterMap_cons, Except.toOption]
  · induction stocks with
    | nil => intro e he; exact absurd he (by simp [gbce_prices])
    | cons s rest ih =>
      intro e he
      cases hv : calc_volume_weighted_price now s trades with
      | ok p =>
        simp only [gbce_prices, hv] at he
        cases hr : gbce_prices now rest trades with
        | ok ps => rw [hr] at he; exact absurd he (by simp)
        | error e2 =>
          rw [hr] at he
          obtain rfl : e2 = e := by simpa using he
          obtain ⟨hswf, t, ht, hte⟩ := ih e2 hr
          exact ⟨hswf, t, List.mem_cons_of_mem s ht, hte⟩
      | error e2 =>
        simp only [gbce_prices, hv] at he
        by_cases hse : swallowed e2 = true
        · rw [if_pos hse] at he
          obtain ⟨hswf, t, ht, hte⟩ := ih e he
          exact ⟨hswf, t, List.mem_cons_of_mem s ht, hte⟩
        · rw [if_neg hse] at he
          obtain rfl : e2 = e := by simpa using he
          exact ⟨by simpa using hse, s, List.mem_cons_self s rest, hv⟩
  · intro ps hps
    constructor
    · intro hnil
      subst hnil
      simp [gbce, hps]
    · intro hne
      have hlen : ¬ ps.length = 0 := by simpa [List.length_eq_zero] using hne
      simp only [gbce, hps, if_neg hlen]

/-- Witness for C5's conjuncts at concrete inputs: with no trades at all the
single-stock registry is fully swallowed and the global error is raised, and
with the in-window POP trade the index is the geometric mean of the one
collected price. -/
theorem gbce_error_handling_witness :
    gbce 0 [stockPOP] [] = .error (.valueError global_no_activity_msg)
    ∧ gbce 200 [stockPOP] [tradePOP] = .ok (geometric_mean [10]) := by
  constructor
  · have h1 : gbce_prices 0 [stockPOP] [] = .ok [] := by
      have hv : calc_volume_weighted_price 0 stockPOP [] =
          .error (.valueError (no_activity_msg "POP")) := rfl
      simp only [gbce_prices, hv]
      rw [if_pos (by decide)]
    exact ((gbce_error_handling 0 [stockPOP] []).2.2 [] h1).1 rfl
  · have h1 : gbce_prices 200 [stockPOP] [tradePOP] = .ok [10] := by
      simp only [gbce_prices, vwp_at_200]
    exact ((gbce_error_handling 200 [stockPOP] [tradePOP]).2.2 [10] h1).2 (by simp)

/-- Logarithm of the product of a list of positive rationals is the sum of the
logarithms. -/
lemma log_list_prod (l : List ℚ) (h : ∀ p ∈ l, 0 < p) :
    Real.log ((l.prod : ℚ) : ℝ) = (l.map (fun x : ℚ => Real.log (x : ℝ))).sum := by
  induction l with
  | nil => simp
  | cons a l ih =>
    have ha : (0:ℝ) < (a : ℝ) := by
      exact_mod_cast h a (List.mem_cons_self a l)
    have hl : ∀ p ∈ l, 0 < p := fun p hp => h p (List.mem_cons_of_mem a hp)
    have hlp : (0:ℝ) < ((l.prod : ℚ) : ℝ) := by exact_mod_cast List.prod_pos hl
    rw [List.prod_cons, Rat.cast_mul, Real.log_mul ha.ne' hlp.ne', ih hl,
      List.map_cons, List.sum_cons]

/-- The library geometric mean (exponential of the mean of logarithms) equals
the n-th root of the product for positive data. -/
lemma geometric_mean_eq_rpow (ps : List ℚ) (hpos : ∀ p ∈ ps, 0 < p) :
    geometric_mean ps = ((ps.prod : ℚ) : ℝ) ^ ((ps.length : ℝ)⁻¹) := by
  have hprod : (0:ℝ) < ((ps.prod : ℚ) : ℝ) := by exact_mod_cast List.prod_pos hpos
  rw [Real.rpow_def_of_pos hprod, geometric_mean, log_list_prod ps hpos, div_eq_mul_inv]

/-- C6: when the collected per-stock prices are a non-empty list of positive
values, `gbce` returns exactly the geometric mean of those prices —
`(product)^(1/n)` — in the real-number semantics of the model. -/
theorem gbce_geometric_mean_formula (now : ℚ) (stocks : List Stock) (trades : List Trade)
    (ps : List ℚ) (hps : gbce_prices now stocks trades = .ok ps) (hne : ps ≠ [])
    (hpos : ∀ p ∈ ps, 0 < p) :
    gbce now stocks trades = .ok (((ps.prod : ℚ) : ℝ) ^ ((ps.length : ℝ)⁻¹)) := by
  have hlen : ¬ ps.length = 0 := by simpa [List.length_eq_zero] using hne
  simp only [gbce, hps, if_neg hlen]
  rw [geometric_mean_eq_rpow ps hpos]

/-- Witness for C6: one stock, one in-window trade at price 10, and the index
is `10^(1/1)`, i.e. the geometric mean of the one collected price. -/
theorem gbce_geometric_mean_formula_witness :
    gbce 200 [stockPOP] [tradePOP] =
      .ok (((([(10 : ℚ)].prod : ℚ) : ℝ)) ^ ((([(10 : ℚ)].length : ℝ))⁻¹)) := by
  have h1 : gbce_prices 200 [stockPOP] [tradePOP] = .ok [10] := by
    simp only [gbce_prices, vwp_at_200]
  exact gbce_geometric_mean_formula 200 [stockPOP] [tradePOP] [10] h1 (by simp)
    (by norm_num)

/-- C7: trade construction fails with a `ValueError` for a non-positive
quantity or price, and for an indicator that is not case-insensitively buy or
sell; any trade it does produce has a positive quantity, a positive price and
a recognized indicator (construction is all-or-nothing). -/
theorem trade_init_validation (now : ℚ) (stock : Stock) (indicator : String)
    (qty : ℤ) (price : ℚ) :
    ((qty ≤ 0 ∨ price ≤ 0) →
      Trade.init now (some stock) (some indicator) (some qty) (some price) =
        .error (.valueError qty_price_msg))
    ∧ (0 < qty → 0 < price → pyLower indicator ≠ "buy" → pyLower indicator ≠ "sell" →
      Trade.init now (some stock) (some indicator) (some qty) (some price) =
        .error (.valueError ("Invalid buy/sell indicator " ++ pyLower indicator)))
    ∧ (∀ t, Trade.init now (some stock) (some indicator) (some qty) (some price) = .ok t →
      0 < t.qty ∧ 0 < t.price ∧ (pyLower indicator = "buy" ∨ pyLower indicator = "sell")) := by
  refine ⟨?_, ?_, ?_⟩
  · intro h
    simp only [Trade.init, pyInt, pyFloat, if_pos h]
  · intro hq hp hb hs
    have hnqp : ¬ (qty ≤ 0 ∨ price ≤ 0) := by
      push_neg
      exact ⟨hq, hp⟩
    have hni : ¬ (pyLower indicator = "buy" ∨ pyLower indicator = "sell") := by
      push_neg
      exact ⟨hb, hs⟩
    simp only [Trade.init, pyInt, pyFloat, if_neg hnqp, if_neg hni]
  · intro t ht
    by_cases hqp : qty ≤ 0 ∨ price ≤ 0
    · simp only [Trade.init, pyInt, pyFloat, if_pos hqp] at ht
      exact absurd ht (by simp)
    · by_cases hind : pyLower indicator = "buy" ∨ pyLower indicator = "sell"
      · simp only [Trade.init, pyInt, pyFloat, if_neg hqp, if_pos hind] at ht
        injection ht with h2
        subst h2
        push_neg at hqp
        exact ⟨hqp.1, hqp.2, hind⟩
      · simp only [Trade.init, pyInt, pyFloat, if_neg hqp, if_neg hind] at ht
        exact absurd ht (by simp)

/-- C8 (amended): `Stock` construction fails — always with a `ValueError` —
iff a mandatory field (symbol, kind, last dividend, par value) is missing, or
the lowered kind is "preferred" and the fixed dividend is missing. An
unrecognized kind is accepted as-is: the constructor never validates the kind
against the two known variants. -/
theorem stock_init_validation (symbol typ : Option String)
    (last_div fixed_div par_value : Option ℤ) :
    (∃ e, Stock.init symbol typ last_div fixed_div par_value = .error e) ↔
      (symbol = none ∨ typ = none ∨ last_div = none ∨ par_value = none ∨
        (∃ t, typ = some t ∧ pyLower t = "preferred" ∧ fixed_div = none)) := by
  cases symbol with
  | none => simp [Stock.init]
  | some sy =>
    cases typ with
    | none => simp [Stock.init]
    | some t =>
      cases last_div with
      | none => simp [Stock.init]
      | some ld =>
        cases par_value with
        | none => simp [Stock.init]
        | some pv =>
          by_cases hpref : pyLower t = "preferred"
          · cases fixed_div with
            | none => simp [Stock.init, hpref]
            | some fd => simp [Stock.init, hpref]
          · simp [Stock.init, hpref]

/-- C8 counterexample: the kind "Banana" is recognized by neither variant, yet
construction succeeds (storing the lowercased kind) instead of failing
validation, refuting the only-if direction of the claim. -/
theorem stock_init_accepts_unrecognized_kind :
    Stock.init (some "X") (some "Banana") (some 1) none (some 100) =
      .ok ⟨"X", "banana", 1, none, 100⟩ := by
  decide

/-- C9: `calc_div_yield` has no unknown-kind branch — every stock whose
lowered kind is not "common" is computed with the preferred formula, and on a
stock built with an unrecognized kind (so `fixed_div` is `None`) the
multiplication `None * int` raises `TypeError`, not a validation error. -/
theorem calc_div_yield_unknown_kind (stock : Stock) (price : ℚ) (hp : 0 < price)
    (hk : pyLower stock.typ ≠ "common") :
    (calc_div_yield stock price =
      match stock.fixed_div with
      | none => .error (.typeError mul_none_int_msg)
      | some fd => .ok (((fd * stock.par_value : ℤ) : ℚ) / (price * 100)))
    ∧ Stock.init (some "B") (some "Fancy") (some 1) none (some 50) =
        .ok ⟨"B", "fancy", 1, none, 50⟩
    ∧ calc_div_yield ⟨"B", "fancy", 1, none, 50⟩ 1 = .error (.typeError mul_none_int_msg) := by
  refine ⟨?_, by decide, ?_⟩
  · simp only [calc_div_yield, if_neg (not_le.mpr hp), if_neg hk]
  · have h1 : ¬ (1 : ℚ) ≤ 0 := by norm_num
    simp only [calc_div_yield, if_neg h1]
    rw [if_neg (by decide)]

/-- Witness for C9 at the concrete unrecognized-kind stock. -/
theorem calc_div_yield_unknown_kind_witness :
    calc_div_yield ⟨"B", "fancy", 1, none, 50⟩ 1 = .error (.typeError mul_none_int_msg) :=
  (calc_div_yield_unknown_kind ⟨"B", "fancy", 1, none, 50⟩ 1 (by norm_num) (by decide)).2.2

lemma data_append (a b : String) : (a ++ b).data = a.data ++ b.data := rfl

/-- The invalid-indicator message never coincides with the mandatory-fields
message, whatever the indicator text: their first characters differ. -/
lemma invalid_indicator_msg_ne (s : String) :
    "Invalid buy/sell indicator " ++ s ≠ mandatory_trade_msg := by
  intro h
  have h2 := congrArg (fun t : String => t.data.head?) h
  simp only [data_append, List.head?_append] at h2
  rw [show ("Invalid buy/sell indicator ".data.head?) = some (Char.ofNat 73) from rfl] at h2
  rw [show (Option.or (some (Char.ofNat 73)) (s.data.head?)) = some (Char.ofNat 73)
    from rfl] at h2
  exact absurd h2 (by decide)

/-- C10: in `Trade.__init__` the coercions `int(qty)` and `float(price)` run
before the mandatory-field `None` check, so a `None` quantity or price raises
`TypeError` from the coercion, and the mandatory-fields `ValueError` can only
arise from a `None` stock or indicator — the branch is unreachable for the
two numeric arguments. -/
theorem trade_init_coercion_before_none_check (now : ℚ) (stock : Option Stock)
    (indicator : Option String) (qty0 : Option ℤ) (price0 : Option ℚ) (q : ℤ) :
    (Trade.init now stock indicator none price0 = .error (.typeError int_of_none_msg))
    ∧ (Trade.init now stock indicator (some q) none = .error (.typeError float_of_none_msg))
    ∧ (Trade.init now stock indicator qty0 price0 = .error (.valueError mandatory_trade_msg) →
        stock = none ∨ indicator = none) := by
  refine ⟨rfl, rfl, ?_⟩
  intro h
  cases qty0 with
  | none => exact absurd h (by simp [Trade.init, pyInt])
  | some q1 =>
    cases price0 with
    | none => exact absurd h (by simp [Trade.init, pyInt, pyFloat])
    | some p1 =>
      cases stock with
      | none => exact Or.inl rfl
      | some st =>
        cases indicator with
        | none => exact Or.inr rfl
        | some ind =>
          exfalso
          by_cases hqp : q1 ≤ 0 ∨ p1 ≤ 0
          · simp only [Trade.init, pyInt, pyFloat, if_pos hqp] at h
            have h3 : qty_price_msg = mandatory_trade_msg := by simpa using h
            exact absurd h3 (by decide)
          · by_cases hind : pyLower ind = "buy" ∨ pyLower ind = "sell"
            · simp only [Trade.init, pyInt, pyFloat, if_neg hqp, if_pos hind] at h
              simp at h
            · simp only [Trade.init, pyInt, pyFloat, if_neg hqp, if_neg hind] at h
              have h3 : "Invalid buy/sell indicator " ++ pyLower ind = mandatory_trade_msg := by
                simpa using h
              exact invalid_indicator_msg_ne (pyLower ind) h3

/-- Witness for C7: a zero quantity fails with the positivity error and the
indicator "hold" fails with the invalid-indicator error. -/
theorem trade_init_validation_witness :
    Trade.init 0 (some stockPOP) (some "buy") (some 0) (some 1) =
      .error (.valueError qty_price_msg)
    ∧ Trade.init 0 (some stockPOP) (some "hold") (some 5) (some 1) =
      .error (.valueError ("Invalid buy/sell indicator " ++ pyLower "hold")) :=
  ⟨(trade_init_validation 0 stockPOP "buy" 0 1).1 (Or.inl (by norm_num)),
   (trade_init_validation 0 stockPOP "hold" 5 1).2.1 (by norm_num) (by norm_num)
     (by decide) (by decide)⟩

/-- Witness for C10: a `None` quantity and a `None` price each fail with the
coercion `TypeError`, not the mandatory-fields message. -/
theorem trade_init_coercion_before_none_check_witness :
    Trade.init 0 (some stockPOP) (some "buy") none (some 1) =
      .error (.typeError int_of_none_msg)
    ∧ Trade.init 0 (some stockPOP) (some "buy") (some 5) none =
      .error (.typeError float_of_none_msg) :=
  ⟨(trade_init_coercion_before_none_check 0 (some stockPOP) (some "buy") none (some 1) 5).1,
   (trade_init_coercion_before_none_check 0 (some stockPOP) (some "buy") none (some 1) 5).2.1⟩

end TradingSim
